import Mathlib

/-!
Verification of the fluctour itinerary generator.

A shallow embedding of the route-construction and day-allocation core of the
fluctour repository (`fluctour/itinerary.py`, `fluctour/utils.py`,
`gmaps_randomizer/maps_client.py`), with theorems settling the frozen claims
about it.

Modelling conventions:
* Python floats are modelled by real numbers (`ℝ`).
* `datetime` values are modelled by their day number (an integer); a
  `timedelta` in days is then a difference of integers.
* Python `//` (floor division) on integers is `Int.fdiv`.
* The external Google-Maps collaborator (`MapsClient`) is a record of three
  oracles (`geocode_location`, `get_directions`, `search_places_in_area`).
  A geocoding call that raises is modelled by the oracle returning `none`;
  a directions call that raises is modelled by the response `DirResponse.err`.
  `search_places_in_area` catches every exception internally and so is total.
* Functions that invoke the collaborator also return the list of collaborator
  calls they performed, so that "no collaborator call is made" is expressible.
* Exceptions that escape a function are modelled with `Except Err`;
  `Err.validation` is the `ValueError` raised by input validation,
  `Err.collab` is any error propagating from a collaborator call.
-/

namespace Fluctour

/-- A geocoded location, as returned by `MapsClient.geocode_location`:
the dict `{formatted_address, lat, lng, place_id, types}` (the `types`
field is never consulted by the itinerary core and is omitted). -/
structure GeoPoint where
  lat : ℝ
  lng : ℝ
  formatted_address : String
  place_id : String
deriving Inhabited

/-- Model of `ItineraryGenerator._calculate_distance`: haversine great-circle
distance in metres, Earth radius 6 371 000 m; `math.radians` converts degrees. -/
noncomputable def calcDistance (loc1 loc2 : GeoPoint) : ℝ :=
  let lat1 := loc1.lat * (Real.pi / 180)
  let lng1 := loc1.lng * (Real.pi / 180)
  let lat2 := loc2.lat * (Real.pi / 180)
  let lng2 := loc2.lng * (Real.pi / 180)
  let dlat := lat2 - lat1
  let dlng := lng2 - lng1
  let a := Real.sin (dlat / 2) ^ 2 +
    Real.cos lat1 * Real.cos lat2 * Real.sin (dlng / 2) ^ 2
  let c := 2 * Real.arcsin (Real.sqrt a)
  c * 6371000

lemma sin_sq_sub_swap (x y : ℝ) :
    Real.sin ((x - y) / 2) ^ 2 = Real.sin ((y - x) / 2) ^ 2 := by
  rw [show (x - y) / 2 = -((y - x) / 2) by ring, Real.sin_neg, neg_sq]

lemma calcDistance_comm (a b : GeoPoint) : calcDistance a b = calcDistance b a := by
  unfold calcDistance
  dsimp only
  rw [sin_sq_sub_swap, sin_sq_sub_swap (b.lng * (Real.pi / 180)),
    mul_comm (Real.cos (a.lat * (Real.pi / 180)))]

lemma calcDistance_self (a : GeoPoint) : calcDistance a a = 0 := by
  unfold calcDistance
  dsimp only
  simp

open Classical in
/-- Model of `ItineraryGenerator._is_location_reasonable`: a stop may not add
more than 50% to the direct distance. -/
noncomputable def isLocationReasonable (start_geo end_geo location : GeoPoint) : Bool :=
  let start_to_location := calcDistance start_geo location
  let location_to_end := calcDistance location end_geo
  let direct_distance := calcDistance start_geo end_geo
  decide (start_to_location + location_to_end ≤ direct_distance * 1.5)

open Classical in
/-- Model of `route_position` inside `ItineraryGenerator._sort_stops_by_route`:
fractional position of a stop along the start-to-end line, with the
zero-distance degenerate case mapped to 0. -/
noncomputable def routePosition (start_geo end_geo stop : GeoPoint) : ℝ :=
  let start_to_stop := calcDistance start_geo stop
  let start_to_end := calcDistance start_geo end_geo
  if start_to_end > 0 then start_to_stop / start_to_end else 0

open Classical in
/-- Model of `ItineraryGenerator._sort_stops_by_route`: Python's `sorted` with
key `route_position` is a stable sort by that key; any stable sort computes the
same list, so it is modelled by insertion sort on the key-induced relation. -/
noncomputable def sortStopsByRoute (start_geo end_geo : GeoPoint)
    (stops : List GeoPoint) : List GeoPoint :=
  stops.insertionSort
    (fun a b => routePosition start_geo end_geo a ≤ routePosition start_geo end_geo b)

/-- One collaborator (MapsClient) call, for expressing which external calls a
function performs. -/
inductive MCall
  | geocode (location : String)
  | directions (origin destination : ℝ × ℝ)
  | search (lat lng : ℝ)

/-- The first leg of a directions result. The Python code reads
`leg.get("distance", \x7b\x7d).get("text", "Unknown")` (and the same for
duration): a missing `distance`/`duration` entry or a missing `text` entry is
modelled uniformly by `none`. -/
structure Leg where
  distanceText : Option String
  durationText : Option String

/-- Outcome of one `MapsClient.get_directions` call, as observed by the
itinerary generator.  `get_directions` re-raises API errors (`err`), returns
the empty — falsy — dict when the API returns no route (`emptyRes`), or
returns the first route, which may or may not carry a `legs` key. -/
inductive DirResponse
  | err
  | emptyRes
  | noLegs
  | withLegs (legs : List Leg)

/-- The external Google-Maps collaborator: geocoding (`none` models a raised
exception), directions, and nearby-place search.  `search_places_in_area`
catches all its exceptions and returns its results sorted by rating, so it is
a total function; its results are used by the generator only as geocoded
points. -/
structure MapsOracle where
  geocode : String → Option GeoPoint
  directions : ℝ × ℝ → ℝ × ℝ → DirResponse
  searchPlaces : ℝ × ℝ → List GeoPoint

/-- Errors escaping the itinerary generator: the `ValueError` raised by input
validation, or an exception propagating out of a collaborator call. -/
inductive Err
  | validation
  | collab
deriving DecidableEq

/-- Model of `MapsClient.get_google_maps_url`. -/
def getGoogleMapsUrl (location : GeoPoint) : String :=
  "https://www.google.com/maps/place/?q=place_id:" ++ location.place_id

/-- Model of `MapsClient.get_directions_url` (no waypoints, as called by the
itinerary generator): spaces become `+`, points joined by `/`. -/
def getDirectionsUrl (origin destination : String) : String :=
  "https://www.google.com/maps/dir/" ++
    String.intercalate "/"
      [origin.replace " " "+", destination.replace " " "+"]

/-- The `(lat, lng)` pair a `GeoPoint` contributes to a directions request
(the Python code formats it as the string `"lat,lng"`). -/
def coords (g : GeoPoint) : ℝ × ℝ := (g.lat, g.lng)

/-- The loop of `ItineraryGenerator._process_constraint_locations`: geocode
each constraint in turn (a raised exception is logged and the constraint
skipped), keep it when `_is_location_reasonable`, and break once
`max_stops` accepted stops have accumulated.  Returns the accumulated stops
together with the collaborator calls performed. -/
noncomputable def processConstraintsAux (o : MapsOracle) (start_geo end_geo : GeoPoint)
    (max_stops : ℕ) : List String → List GeoPoint → List GeoPoint × List MCall
  | [], constraint_stops => (constraint_stops, [])
  | location :: rest, constraint_stops =>
    match o.geocode location with
    | none =>
      let r := processConstraintsAux o start_geo end_geo max_stops rest constraint_stops
      (r.1, .geocode location :: r.2)
    | some geo_location =>
      if isLocationReasonable start_geo end_geo geo_location then
        let acc := constraint_stops ++ [geo_location]
        if max_stops ≤ acc.length then (acc, [.geocode location])
        else
          let r := processConstraintsAux o start_geo end_geo max_stops rest acc
          (r.1, .geocode location :: r.2)
      else
        let r := processConstraintsAux o start_geo end_geo max_stops rest constraint_stops
        (r.1, .geocode location :: r.2)

/-- Model of `ItineraryGenerator._process_constraint_locations`. -/
noncomputable def processConstraintLocations (o : MapsOracle) (constraint_locations : List String)
    (start_geo end_geo : GeoPoint) (max_stops : ℕ) : List GeoPoint × List MCall :=
  processConstraintsAux o start_geo end_geo max_stops constraint_locations []

open Classical in
/-- The inner loop of `ItineraryGenerator._find_places_along_route`: the first
nearby place farther than 10 000 m from both endpoints (the code's distance
calls are `_calculate_distance(place, start_geo)` and
`_calculate_distance(place, end_geo)`). -/
noncomputable def firstQualifying (start_geo end_geo : GeoPoint) :
    List GeoPoint → Option GeoPoint
  | [] => none
  | place :: rest =>
    if calcDistance place start_geo > 10000 ∧ calcDistance place end_geo > 10000 then
      some place
    else firstQualifying start_geo end_geo rest

/-- Model of `ItineraryGenerator._find_places_along_route`: for each
`i` in `1..num_stops`, interpolate a point at fraction `i/(num_stops+1)`,
search nearby (radius 30 000 m), and keep the first qualifying result, if
any.  Returns the collected places and the search calls performed. -/
noncomputable def findPlacesAlongRoute (o : MapsOracle) (start_geo end_geo : GeoPoint)
    (num_stops : ℕ) : List GeoPoint × List MCall :=
  (List.range' 1 num_stops).foldl
    (fun r i =>
      let frac : ℝ := (i : ℝ) / ((num_stops : ℝ) + 1)
      let lat := start_geo.lat + (end_geo.lat - start_geo.lat) * frac
      let lng := start_geo.lng + (end_geo.lng - start_geo.lng) * frac
      let nearby := o.searchPlaces (lat, lng)
      match firstQualifying start_geo end_geo nearby with
      | some place => (r.1 ++ [place], r.2 ++ [.search lat lng])
      | none => (r.1, r.2 ++ [.search lat lng]))
    ([], [])

/-- Model of `ItineraryGenerator._find_intermediate_stops`.  The model takes
`min_stay ≥ 1` for granted (enforced by `validate_itinerary_params` before any
call) so that Python's `//` is `Int.fdiv`; with `min_stay = 0` the Python code
would raise `ZeroDivisionError` instead.  The unused `route_info` directions
call still propagates a collaborator error. -/
noncomputable def findIntermediateStops (o : MapsOracle) (start_geo end_geo : GeoPoint)
    (constraint_locations : List String) (max_stops total_days min_stay : ℤ) :
    Except Err (List GeoPoint) × List MCall :=
  let available_days := total_days - 2 * min_stay
  let max_possible_stops := min max_stops (available_days.fdiv min_stay)
  if max_possible_stops ≤ 0 then (.ok [], [])
  else
    let route_call := MCall.directions (coords start_geo) (coords end_geo)
    match o.directions (coords start_geo) (coords end_geo) with
    | .err => (.error .collab, [route_call])
    | _ =>
      let cRes :=
        if constraint_locations.isEmpty then ([], [])
        else processConstraintLocations o constraint_locations start_geo end_geo
          max_possible_stops.toNat
      let remaining_stops := max_possible_stops - cRes.1.length
      let pRes :=
        if remaining_stops > 0 then
          findPlacesAlongRoute o start_geo end_geo remaining_stops.toNat
        else ([], [])
      let sorted := sortStopsByRoute start_geo end_geo (cRes.1 ++ pRes.1)
      (.ok (sorted.take max_possible_stops.toNat), route_call :: (cRes.2 ++ pRes.2))

/-- One entry of the daily schedule built by
`ItineraryGenerator._distribute_days`; dates are day numbers (the Python code
formats them as strings for display). -/
structure ScheduleEntry where
  location : GeoPoint
  start_date : ℤ
  end_date : ℤ
  days : ℤ
  google_maps_url : String
deriving Inhabited

/-- The loop of `ItineraryGenerator._distribute_days`: every location gets
`base` days, plus one of the remaining days while any remain — except the
last location, which instead absorbs whatever remainder is left. -/
def distributeDaysAux (base : ℤ) :
    List GeoPoint → ℤ → ℤ → List ScheduleEntry
  | [], _, _ => []
  | [location], current_date, remaining_days =>
    let days_here := base + remaining_days
    [{ location := location, start_date := current_date,
       end_date := current_date + days_here, days := days_here,
       google_maps_url := getGoogleMapsUrl location }]
  | location :: next :: rest, current_date, remaining_days =>
    let extra_days := if remaining_days > 0 then min remaining_days 1 else 0
    let days_here := base + extra_days
    { location := location, start_date := current_date,
      end_date := current_date + days_here, days := days_here,
      google_maps_url := getGoogleMapsUrl location } ::
      distributeDaysAux base (next :: rest) (current_date + days_here)
        (remaining_days - extra_days)

/-- Model of `ItineraryGenerator._distribute_days`. -/
def distributeDays (locations : List GeoPoint) (start_date total_days min_stay : ℤ) :
    List ScheduleEntry :=
  if locations.length = 0 then []
  else
    let base_days_per_location := max min_stay (total_days.fdiv locations.length)
    let remaining_days := total_days - base_days_per_location * locations.length
    distributeDaysAux base_days_per_location locations start_date remaining_days

/-- One travel suggestion (`TravelLeg`); `from_` and `to_` model the Python
keys `"from"` and `"to"` (both Lean keywords). -/
structure Suggestion where
  from_ : String
  to_ : String
  distance : String
  duration : String
  mode : String
  directions_url : String
deriving Inhabited

/-- The suggestion built for one consecutive pair from the first leg of its
directions result. -/
def mkSuggestion (current_loc next_loc : GeoPoint) (leg : Leg) : Suggestion :=
  { from_ := current_loc.formatted_address,
    to_ := next_loc.formatted_address,
    distance := leg.distanceText.getD "Unknown",
    duration := leg.durationText.getD "Unknown",
    mode := "driving",
    directions_url := getDirectionsUrl current_loc.formatted_address
      next_loc.formatted_address }

/-- Model of `ItineraryGenerator._generate_travel_suggestions`: one directions
call per consecutive pair.  A raised directions error propagates
(`get_directions` re-raises and the loop does not catch); a falsy result or a
result without a `legs` key skips the pair; an empty `legs` list makes
`directions["legs"][0]` raise `IndexError`. -/
noncomputable def genTravelSuggestions (o : MapsOracle) :
    List GeoPoint → Except Err (List Suggestion) × List MCall
  | [] => (.ok [], [])
  | [_] => (.ok [], [])
  | current_loc :: next_loc :: rest =>
    let call := MCall.directions (coords current_loc) (coords next_loc)
    match o.directions (coords current_loc) (coords next_loc) with
    | .err => (.error .collab, [call])
    | .emptyRes =>
      let r := genTravelSuggestions o (next_loc :: rest)
      (r.1, call :: r.2)
    | .noLegs =>
      let r := genTravelSuggestions o (next_loc :: rest)
      (r.1, call :: r.2)
    | .withLegs [] => (.error .collab, [call])
    | .withLegs (leg :: _) =>
      let r := genTravelSuggestions o (next_loc :: rest)
      match r.1 with
      | .error e => (.error e, call :: r.2)
      | .ok rest_suggestions =>
        (.ok (mkSuggestion current_loc next_loc leg :: rest_suggestions), call :: r.2)

/-- The itinerary record returned by `ItineraryGenerator.generate_itinerary`;
dates are day numbers (formatted as ISO strings for display in Python). -/
structure Itinerary where
  start_location : String
  end_location : String
  start_date : ℤ
  end_date : ℤ
  total_days : ℤ
  locations : List GeoPoint
  daily_schedule : List ScheduleEntry
  travel_suggestions : List Suggestion
deriving Inhabited

/-- Model of `ItineraryGenerator.generate_itinerary`. -/
noncomputable def generateItinerary (o : MapsOracle)
    (start_location end_location : String) (start_date end_date : ℤ)
    (constraint_locations : List String) (max_stops min_stay : ℤ) :
    Except Err Itinerary × List MCall :=
  let total_days := end_date - start_date
  if total_days < min_stay then (.error .validation, [])
  else
    match o.geocode start_location with
    | none => (.error .collab, [.geocode start_location])
    | some start_geo =>
      match o.geocode end_location with
      | none => (.error .collab, [.geocode start_location, .geocode end_location])
      | some end_geo =>
        let fRes := findIntermediateStops o start_geo end_geo constraint_locations
          max_stops total_days min_stay
        let log0 := [MCall.geocode start_location, MCall.geocode end_location] ++ fRes.2
        match fRes.1 with
        | .error e => (.error e, log0)
        | .ok intermediate_stops =>
          let all_locations := [start_geo] ++ intermediate_stops ++ [end_geo]
          let daily_schedule := distributeDays all_locations start_date total_days min_stay
          let tRes := genTravelSuggestions o all_locations
          match tRes.1 with
          | .error e => (.error e, log0 ++ tRes.2)
          | .ok travel_suggestions =>
            (.ok { start_location := start_location, end_location := end_location,
                   start_date := start_date, end_date := end_date,
                   total_days := total_days, locations := all_locations,
                   daily_schedule := daily_schedule,
                   travel_suggestions := travel_suggestions },
             log0 ++ tRes.2)

/-- Model of `validate_itinerary_params` in `fluctour/utils.py`. -/
def validateItineraryParams (max_stops min_stay : ℤ) : Except Err Unit :=
  if max_stops < 0 then .error .validation
  else if min_stay < 1 then .error .validation
  else if max_stops > 10 then .error .validation
  else .ok ()

/-! Concrete sample data used to witness the theorems below. -/

noncomputable def pA : GeoPoint :=
  { lat := 0, lng := 0, formatted_address := "A", place_id := "ida" }

noncomputable def pB : GeoPoint :=
  { lat := 1, lng := 1, formatted_address := "B", place_id := "idb" }

/-- An oracle that geocodes `"A"` and `"B"`, fails every other geocoding call,
answers every directions request with the empty (falsy) dict and every place
search with no results. -/
noncomputable def oracleEmpty : MapsOracle :=
  { geocode := fun s => if s = "A" then some pA else if s = "B" then some pB else none,
    directions := fun _ _ => .emptyRes,
    searchPlaces := fun _ => [] }

/-- Like `oracleEmpty` but every directions call raises. -/
noncomputable def oracleErr : MapsOracle :=
  { oracleEmpty with directions := fun _ _ => .err }

/-- Like `oracleEmpty` but every directions result is truthy without a `legs`
key. -/
noncomputable def oracleNoLegs : MapsOracle :=
  { oracleEmpty with directions := fun _ _ => .noLegs }

/-- Like `oracleEmpty` but every directions result has one leg with full
distance/duration text. -/
noncomputable def oracleLegs : MapsOracle :=
  { oracleEmpty with
    directions := fun _ _ => .withLegs [{ distanceText := some "461 km",
                                          durationText := some "4 hours 30 mins" }] }

/-- Like `oracleEmpty` but every directions result has one leg missing both
its distance text and its duration text. -/
noncomputable def oracleBareLeg : MapsOracle :=
  { oracleEmpty with
    directions := fun _ _ => .withLegs [{ distanceText := none, durationText := none }] }

/-- The itinerary produced for a one-day trip from `"A"` to `"B"` with no
constraints. -/
noncomputable def itinOneDay : Itinerary :=
  match (generateItinerary oracleEmpty "A" "B" 0 1 [] 5 1).1 with
  | .ok itin => itin
  | .error _ => default

/-- The itinerary produced for a two-day trip from `"A"` to `"B"` with no
constraints. -/
noncomputable def itinTwoDay : Itinerary :=
  match (generateItinerary oracleEmpty "A" "B" 0 2 [] 5 1).1 with
  | .ok itin => itin
  | .error _ => default

/-! Day-allocation lemmas. -/

lemma distributeDaysAux_days_sum (base : ℤ) :
    ∀ (locs : List GeoPoint) (cur rem : ℤ), locs ≠ [] →
      ((distributeDaysAux base locs cur rem).map ScheduleEntry.days).sum
        = base * locs.length + rem := by
  intro locs
  induction locs with
  | nil => intro cur rem h; exact absurd rfl h
  | cons a tail ih =>
    intro cur rem _
    cases tail with
    | nil =>
      simp only [distributeDaysAux, List.map_cons, List.map_nil, List.sum_cons,
        List.sum_nil, List.length_cons, List.length_nil]
      push_cast
      ring
    | cons b rest =>
      simp only [distributeDaysAux, List.map_cons, List.sum_cons]
      rw [ih (cur + (base + if rem > 0 then min rem 1 else 0))
        (rem - if rem > 0 then min rem 1 else 0) (by simp)]
      simp only [List.length_cons]
      push_cast
      ring

lemma distributeDays_days_sum (locs : List GeoPoint) (sd total mst : ℤ)
    (h : locs ≠ []) :
    ((distributeDays locs sd total mst).map ScheduleEntry.days).sum = total := by
  unfold distributeDays
  rw [if_neg (by simpa using h)]
  rw [distributeDaysAux_days_sum _ _ _ _ h]
  ring

lemma distributeDaysAux_days_ge (base : ℤ) :
    ∀ (locs : List GeoPoint) (cur rem : ℤ), 0 ≤ rem →
      ∀ entry ∈ distributeDaysAux base locs cur rem, base ≤ entry.days := by
  intro locs
  induction locs with
  | nil => intro cur rem _ entry h; simp [distributeDaysAux] at h
  | cons a tail ih =>
    intro cur rem hrem entry hmem
    cases tail with
    | nil =>
      simp only [distributeDaysAux, List.mem_singleton] at hmem
      subst hmem
      simpa using hrem
    | cons b rest =>
      simp only [distributeDaysAux, List.mem_cons] at hmem
      rcases hmem with hmem | hmem
      · subst hmem
        dsimp only
        split <;> omega
      · exact ih _ _ (by split <;> omega) entry hmem

/-- Characterisation of a successful `generate_itinerary` run: the result
record echoes the dates, its locations are start + stops + end for the stop
list found by `_find_intermediate_stops`, and its schedule comes from
`_distribute_days`. -/
lemma generateItinerary_ok (o : MapsOracle) (sl el : String) (sd ed : ℤ)
    (cs : List String) (ms mst : ℤ) (itin : Itinerary)
    (h : (generateItinerary o sl el sd ed cs ms mst).1 = .ok itin) :
    itin.total_days = ed - sd ∧ itin.start_date = sd ∧ itin.end_date = ed ∧
    ∃ start_geo end_geo stops,
      o.geocode sl = some start_geo ∧ o.geocode el = some end_geo ∧
      (findIntermediateStops o start_geo end_geo cs ms (ed - sd) mst).1 = .ok stops ∧
      itin.locations = [start_geo] ++ stops ++ [end_geo] ∧
      itin.daily_schedule = distributeDays itin.locations sd (ed - sd) mst := by
  unfold generateItinerary at h
  dsimp only at h
  by_cases hv : ed - sd < mst
  · rw [if_pos hv] at h
    simp at h
  rw [if_neg hv] at h
  cases hsg : o.geocode sl with
  | none => rw [hsg] at h; simp at h
  | some start_geo =>
    rw [hsg] at h; dsimp only at h
    cases heg : o.geocode el with
    | none => rw [heg] at h; simp at h
    | some end_geo =>
      rw [heg] at h; dsimp only at h
      cases hst : (findIntermediateStops o start_geo end_geo cs ms (ed - sd) mst).1 with
      | error e => rw [hst] at h; simp at h
      | ok stops =>
        rw [hst] at h; dsimp only at h
        cases htr : (genTravelSuggestions o ([start_geo] ++ stops ++ [end_geo])).1 with
        | error e => rw [htr] at h; simp at h
        | ok sugg =>
          rw [htr] at h
          simp only [Except.ok.injEq] at h
          subst h
          exact ⟨rfl, rfl, rfl, start_geo, end_geo, stops, rfl, rfl, hst, rfl, rfl⟩

/-- C1: for every valid invocation of `generate_itinerary` that returns an
itinerary, the day counts of the daily schedule sum exactly to `total_days`,
which equals `end_date - start_date` in days. -/
theorem generate_itinerary_days_sum (o : MapsOracle) (sl el : String)
    (sd ed : ℤ) (cs : List String) (ms mst : ℤ) (itin : Itinerary)
    (h : (generateItinerary o sl el sd ed cs ms mst).1 = .ok itin) :
    ((itin.daily_schedule.map ScheduleEntry.days).sum = ed - sd)
    ∧ itin.total_days = ed - sd := by
  obtain ⟨htd, -, -, sg, eg, stops, -, -, -, hlocs, hsched⟩ :=
    generateItinerary_ok o sl el sd ed cs ms mst itin h
  refine ⟨?_, htd⟩
  rw [hsched, distributeDays_days_sum _ _ _ _ (by simp [hlocs])]

/-- Witness for C1: the concrete one-day trip from `"A"` to `"B"`. -/
theorem generate_itinerary_days_sum_witness :
    ((itinOneDay.daily_schedule.map ScheduleEntry.days).sum = 1 - 0)
    ∧ itinOneDay.total_days = 1 - 0 :=
  generate_itinerary_days_sum oracleEmpty "A" "B" 0 1 [] 5 1 itinOneDay rfl

/-- C7: a trip shorter than `min_stay` makes `generate_itinerary` raise a
validation error before any collaborator call, and `validate_itinerary_params`
raises a validation error for a negative `max_stops`, a `min_stay` below 1, or
a `max_stops` above 10. -/
theorem validation_errors_abort :
    (∀ (o : MapsOracle) (sl el : String) (sd ed : ℤ) (cs : List String) (ms mst : ℤ),
        ed - sd < mst →
        generateItinerary o sl el sd ed cs ms mst = (.error .validation, []))
    ∧ (∀ ms mst : ℤ, ms < 0 ∨ mst < 1 ∨ ms > 10 →
        validateItineraryParams ms mst = .error .validation) := by
  constructor
  · intro o sl el sd ed cs ms mst h
    unfold generateItinerary
    simp [h]
  · intro ms mst h
    unfold validateItineraryParams
    split_ifs with h1 h2 h3
    · rfl
    · rfl
    · rfl
    · exact absurd h (by omega)

/-- Witness for C7: a zero-day trip with `min_stay = 1`, and
`max_stops = 11`. -/
theorem validation_errors_abort_witness :
    generateItinerary oracleEmpty "A" "B" 0 0 [] 5 1 = (.error .validation, [])
    ∧ validateItineraryParams 11 1 = .error .validation :=
  ⟨validation_errors_abort.1 oracleEmpty "A" "B" 0 0 [] 5 1 (by decide),
   validation_errors_abort.2 11 1 (by decide)⟩

/-- C10: the haversine distance is symmetric, and the distance from any point
to itself is zero. -/
theorem calc_distance_symm_and_self (a b : GeoPoint) :
    calcDistance a b = calcDistance b a ∧ calcDistance a a = 0 :=
  ⟨calcDistance_comm a b, calcDistance_self a⟩

/-! Stop-selector lemmas. -/

lemma findIntermediateStops_ok_length (o : MapsOracle) (sg eg : GeoPoint)
    (cs : List String) (ms td mst : ℤ) (res : List GeoPoint) (calls : List MCall)
    (h : findIntermediateStops o sg eg cs ms td mst = (.ok res, calls)) :
    res.length ≤ (min ms ((td - 2 * mst).fdiv mst)).toNat := by
  unfold findIntermediateStops at h
  dsimp only at h
  by_cases hc : min ms ((td - 2 * mst).fdiv mst) ≤ 0
  · rw [if_pos hc] at h
    simp only [Prod.mk.injEq, Except.ok.injEq] at h
    simp [← h.1]
  · rw [if_neg hc] at h
    split at h
    · simp at h
    · simp only [Prod.mk.injEq, Except.ok.injEq] at h
      rw [← h.1]
      simp [List.length_take]

/-- C2: the stop selector computes its capacity as
`min(max_stops, (total_days - 2*min_stay) // min_stay)`; a non-positive
capacity yields the empty stop list with no collaborator call and no error,
and a returned stop list never exceeds the capacity.  (`min_stay ≥ 1` is the
regime in which the model's floor division is faithful to Python.) -/
theorem stop_selector_capacity (o : MapsOracle) (sg eg : GeoPoint)
    (cs : List String) (ms td mst : ℤ) (_hmst : 1 ≤ mst) :
    (min ms ((td - 2 * mst).fdiv mst) ≤ 0 →
      findIntermediateStops o sg eg cs ms td mst = (.ok [], []))
    ∧ ∀ res calls, findIntermediateStops o sg eg cs ms td mst = (.ok res, calls) →
        res.length ≤ (min ms ((td - 2 * mst).fdiv mst)).toNat := by
  constructor
  · intro hc
    unfold findIntermediateStops
    dsimp only
    rw [if_pos hc]
  · intro res calls h
    exact findIntermediateStops_ok_length o sg eg cs ms td mst res calls h

/-- Witness for C2: a one-day trip with `min_stay = 1` has capacity
`min 5 (-1) = -1 ≤ 0`. -/
theorem stop_selector_capacity_witness :
    findIntermediateStops oracleEmpty pA pB [] 5 1 1 = (.ok [], [])
    ∧ ([] : List GeoPoint).length ≤ (min 5 (((1 : ℤ) - 2 * 1).fdiv 1)).toNat :=
  ⟨(stop_selector_capacity oracleEmpty pA pB [] 5 1 1 (by decide)).1 (by decide),
   (stop_selector_capacity oracleEmpty pA pB [] 5 1 1 (by decide)).2 [] []
     ((stop_selector_capacity oracleEmpty pA pB [] 5 1 1 (by decide)).1 (by decide))⟩

lemma processConstraintsAux_eq_filter (o : MapsOracle) (sg eg : GeoPoint) (m : ℕ) :
    ∀ (cs : List String) (acc : List GeoPoint), acc.length < m →
      (processConstraintsAux o sg eg m cs acc).1
        = acc ++ (((cs.filterMap o.geocode).filter
            (fun g => isLocationReasonable sg eg g)).take (m - acc.length)) := by
  intro cs
  induction cs with
  | nil => intro acc _; simp [processConstraintsAux]
  | cons c rest ih =>
    intro acc hacc
    rw [processConstraintsAux]
    cases hg : o.geocode c with
    | none =>
      dsimp only
      rw [ih acc hacc]
      simp [List.filterMap_cons, hg]
    | some g =>
      dsimp only
      by_cases hr : isLocationReasonable sg eg g
      · rw [if_pos hr]
        simp only [List.filterMap_cons, hg, List.filter_cons, hr, if_pos]
        by_cases hb : m ≤ (acc ++ [g]).length
        · rw [if_pos hb]
          have hm : m - acc.length = 1 := by
            simp only [List.length_append, List.length_singleton] at hb ⊢
            omega
          rw [hm]
          simp
        · rw [if_neg hb]
          dsimp only
          rw [ih (acc ++ [g]) (by omega)]
          have hm : m - acc.length = (m - (acc ++ [g]).length) + 1 := by
            simp only [List.length_append, List.length_singleton] at hb ⊢
            omega
          rw [hm, List.take_succ_cons]
          simp
      · rw [if_neg hr]
        dsimp only
        rw [ih acc hacc]
        simp only [List.filterMap_cons, hg, List.filter_cons]
        rw [if_neg (by simpa using hr)]

/-- C5: with a positive stop budget, the accepted constraint stops are exactly
the successfully geocoded constraints passing the detour filter
`distance(start,stop) + distance(stop,end) ≤ 1.5 * distance(start,end)`,
in order, truncated at the budget; in particular every stop in the result
passes the filter, and every rejected constraint is silently dropped. -/
theorem constraint_detour_filter (o : MapsOracle) (cs : List String)
    (sg eg : GeoPoint) (m : ℕ) (hm : 1 ≤ m) :
    (processConstraintLocations o cs sg eg m).1
      = ((cs.filterMap o.geocode).filter
          (fun g => isLocationReasonable sg eg g)).take m
    ∧ ∀ g ∈ (processConstraintLocations o cs sg eg m).1,
        isLocationReasonable sg eg g = true := by
  have h0 : (processConstraintLocations o cs sg eg m).1
      = ((cs.filterMap o.geocode).filter
          (fun g => isLocationReasonable sg eg g)).take m := by
    unfold processConstraintLocations
    rw [processConstraintsAux_eq_filter o sg eg m cs [] (by simpa using hm)]
    simp
  refine ⟨h0, ?_⟩
  intro g hg
  rw [h0] at hg
  exact List.of_mem_filter (List.mem_of_mem_take hg)

/-- Witness for C5: one constraint, budget 1. -/
theorem constraint_detour_filter_witness :
    (processConstraintLocations oracleEmpty ["A"] pA pB 1).1
      = ((["A"].filterMap oracleEmpty.geocode).filter
          (fun g => isLocationReasonable pA pB g)).take 1
    ∧ ∀ g ∈ (processConstraintLocations oracleEmpty ["A"] pA pB 1).1,
        isLocationReasonable pA pB g = true :=
  constraint_detour_filter oracleEmpty ["A"] pA pB 1 (by decide)

lemma processConstraintsAux_skip (o : MapsOracle) (sg eg : GeoPoint) (m : ℕ)
    (bad : String) (hbad : o.geocode bad = none) :
    ∀ (cs1 cs2 : List String) (acc : List GeoPoint),
      (processConstraintsAux o sg eg m (cs1 ++ bad :: cs2) acc).1
        = (processConstraintsAux o sg eg m (cs1 ++ cs2) acc).1 := by
  intro cs1
  induction cs1 with
  | nil =>
    intro cs2 acc
    rw [List.nil_append, List.nil_append, processConstraintsAux]
    rw [hbad]
  | cons c rest ih =>
    intro cs2 acc
    rw [List.cons_append, List.cons_append, processConstraintsAux,
      processConstraintsAux]
    cases hg : o.geocode c with
    | none => dsimp only; exact ih cs2 acc
    | some g =>
      dsimp only
      by_cases hr : isLocationReasonable sg eg g
      · rw [if_pos hr, if_pos hr]
        by_cases hb : m ≤ (acc ++ [g]).length
        · rw [if_pos hb, if_pos hb]
        · rw [if_neg hb, if_neg hb]
          dsimp only
          exact ih cs2 (acc ++ [g])
      · rw [if_neg hr, if_neg hr]
        dsimp only
        exact ih cs2 acc

/-- C8: a constraint whose geocoding raises is skipped and processing
continues with the remaining constraints — the accepted stop list is the one
obtained with that constraint absent, so no per-constraint failure aborts the
selection. -/
theorem geocode_failure_skips_constraint (o : MapsOracle) (sg eg : GeoPoint)
    (m : ℕ) (cs1 cs2 : List String) (bad : String)
    (hbad : o.geocode bad = none) :
    (processConstraintLocations o (cs1 ++ bad :: cs2) sg eg m).1
      = (processConstraintLocations o (cs1 ++ cs2) sg eg m).1 :=
  processConstraintsAux_skip o sg eg m bad hbad cs1 cs2 []

/-- Witness for C8: the unknown constraint `"X"` between two known ones. -/
theorem geocode_failure_skips_constraint_witness :
    (processConstraintLocations oracleEmpty (["A"] ++ "X" :: ["B"]) pA pB 3).1
      = (processConstraintLocations oracleEmpty (["A"] ++ ["B"]) pA pB 3).1 :=
  geocode_failure_skips_constraint oracleEmpty pA pB 3 ["A"] ["B"] "X" rfl

/-! Travel-suggestion lemmas. -/

lemma genTravelSuggestions_length (o : MapsOracle) :
    ∀ (locs : List GeoPoint) (l : List Suggestion),
      (genTravelSuggestions o locs).1 = .ok l → l.length ≤ locs.length - 1 := by
  intro locs
  induction locs with
  | nil =>
    intro l h
    simp only [genTravelSuggestions, Except.ok.injEq] at h
    simp [← h]
  | cons a tail ih =>
    intro l h
    cases tail with
    | nil =>
      simp only [genTravelSuggestions, Except.ok.injEq] at h
      simp [← h]
    | cons b rest =>
      rw [genTravelSuggestions] at h
      cases hd : o.directions (coords a) (coords b) with
      | err => rw [hd] at h; simp at h
      | emptyRes =>
        rw [hd] at h; dsimp only at h
        have := ih l h
        simp only [List.length_cons] at this ⊢
        omega
      | noLegs =>
        rw [hd] at h; dsimp only at h
        have := ih l h
        simp only [List.length_cons] at this ⊢
        omega
      | withLegs legs =>
        cases legs with
        | nil => rw [hd] at h; simp at h
        | cons leg more =>
          rw [hd] at h; dsimp only at h
          cases hrec : (genTravelSuggestions o (b :: rest)).1 with
          | error e => rw [hrec] at h; simp at h
          | ok rest_sugg =>
            rw [hrec] at h
            simp only [Except.ok.injEq] at h
            have := ih rest_sugg hrec
            subst h
            simp only [List.length_cons] at this ⊢
            omega

lemma genTravelSuggestions_full (o : MapsOracle)
    (h : ∀ x y, ∃ leg legs, o.directions x y = .withLegs (leg :: legs)) :
    ∀ locs : List GeoPoint, ∃ l, (genTravelSuggestions o locs).1 = .ok l
      ∧ l.length = locs.length - 1 := by
  intro locs
  induction locs with
  | nil => exact ⟨[], rfl, rfl⟩
  | cons a tail ih =>
    cases tail with
    | nil => exact ⟨[], rfl, rfl⟩
    | cons b rest =>
      obtain ⟨leg, legs, hd⟩ := h (coords a) (coords b)
      obtain ⟨l, hok, hlen⟩ := ih
      refine ⟨mkSuggestion a b leg :: l, ?_, ?_⟩
      · rw [genTravelSuggestions, hd]
        dsimp only
        rw [hok]
      · simp only [List.length_cons] at hlen ⊢
        omega

/-- C3 (amended): the number of travel suggestions is at most
`len(locations) - 1`, with equality when every consecutive pair's directions
lookup returns a route with a non-empty `legs` list; pairs whose lookup
returns a falsy or legs-less result produce no suggestion, so the count can
be smaller. -/
theorem travel_legs_count (o : MapsOracle) (locs : List GeoPoint) :
    (∀ l, (genTravelSuggestions o locs).1 = .ok l → l.length ≤ locs.length - 1)
    ∧ ((∀ x y, ∃ leg legs, o.directions x y = .withLegs (leg :: legs)) →
        ∃ l, (genTravelSuggestions o locs).1 = .ok l ∧ l.length = locs.length - 1) :=
  ⟨fun l h => genTravelSuggestions_length o locs l h,
   fun h => genTravelSuggestions_full o h locs⟩

/-- C3 counterexample: with two locations and a directions collaborator that
returns the empty (falsy) dict for the pair, the suggestion list is empty —
not of length `len(locations) - 1 = 1` — so the leg count does not equal
`len(locations) - 1` regardless of what the collaborator returns. -/
theorem travel_legs_count_counterexample :
    (genTravelSuggestions oracleEmpty [pA, pB]).1 = .ok []
    ∧ ¬ (([] : List Suggestion).length = [pA, pB].length - 1) :=
  ⟨rfl, by decide⟩

/-- Witness for C3 (amended): a directions collaborator that always returns a
one-leg route yields exactly `len(locations) - 1` suggestions. -/
theorem travel_legs_count_witness :
    ∃ l, (genTravelSuggestions oracleLegs [pA, pB]).1 = .ok l
      ∧ l.length = [pA, pB].length - 1 :=
  (travel_legs_count oracleLegs [pA, pB]).2 (fun _ _ => ⟨_, _, rfl⟩)

/-- C4 (amended): when the first leg of a returned route lacks distance or
duration text the suggestion substitutes `"Unknown"`, and when the directions
result is falsy or has no `legs` key the pair is skipped and assembly
continues; but a directions call that raises propagates and the whole
assembly fails (the claim's error-recovery half does not hold). -/
theorem unknown_substitution (o : MapsOracle) (a b : GeoPoint) (rest : List Leg) :
    (o.directions (coords a) (coords b)
        = .withLegs ({ distanceText := none, durationText := none } :: rest) →
      (genTravelSuggestions o [a, b]).1
        = .ok [{ from_ := a.formatted_address, to_ := b.formatted_address,
                 distance := "Unknown", duration := "Unknown", mode := "driving",
                 directions_url := getDirectionsUrl a.formatted_address
                   b.formatted_address }])
    ∧ (o.directions (coords a) (coords b) = .emptyRes →
        (genTravelSuggestions o [a, b]).1 = .ok [])
    ∧ (o.directions (coords a) (coords b) = .noLegs →
        (genTravelSuggestions o [a, b]).1 = .ok [])
    ∧ (o.directions (coords a) (coords b) = .err →
        (genTravelSuggestions o [a, b]).1 = .error .collab) := by
  refine ⟨fun hd => ?_, fun hd => ?_, fun hd => ?_, fun hd => ?_⟩ <;>
    rw [genTravelSuggestions, hd] <;> rfl

/-- C4 counterexample: a raised directions call makes the whole assembly
fail with the propagated error, contrary to the claim that no directions
failure makes the assembly fail. -/
theorem unknown_substitution_counterexample :
    (genTravelSuggestions oracleErr [pA, pB]).1 = .error .collab := rfl

/-- Witness for C4 (amended): all four directions outcomes at the concrete
pair. -/
theorem unknown_substitution_witness :
    (genTravelSuggestions oracleBareLeg [pA, pB]).1
      = .ok [{ from_ := pA.formatted_address, to_ := pB.formatted_address,
               distance := "Unknown", duration := "Unknown", mode := "driving",
               directions_url := getDirectionsUrl pA.formatted_address
                 pB.formatted_address }]
    ∧ (genTravelSuggestions oracleEmpty [pA, pB]).1 = .ok []
    ∧ (genTravelSuggestions oracleNoLegs [pA, pB]).1 = .ok []
    ∧ (genTravelSuggestions oracleErr [pA, pB]).1 = .error .collab :=
  ⟨(unknown_substitution oracleBareLeg pA pB []).1 rfl,
   (unknown_substitution oracleEmpty pA pB []).2.1 rfl,
   (unknown_substitution oracleNoLegs pA pB []).2.2.1 rfl,
   (unknown_substitution oracleErr pA pB []).2.2.2 rfl⟩

/-! Route-ordering lemmas: stability of sorting by a real-valued key. -/

open Classical in
lemma filter_orderedInsert_key {α : Type} (k : α → ℝ) (v : ℝ) (a : α) :
    ∀ l : List α,
      (l.orderedInsert (fun x y => k x ≤ k y) a).filter (fun x => decide (k x = v))
        = if k a = v then a :: l.filter (fun x => decide (k x = v))
          else l.filter (fun x => decide (k x = v))
  | [] => by
    simp only [List.orderedInsert, List.filter]
    by_cases hv : k a = v <;> simp [hv]
  | b :: l => by
    simp only [List.orderedInsert]
    by_cases hab : k a ≤ k b
    · rw [if_pos hab]
      by_cases hv : k a = v <;> simp [List.filter_cons, hv]
    · rw [if_neg hab]
      have hlt : k b < k a := lt_of_not_le hab
      rw [List.filter_cons, filter_orderedInsert_key k v a l]
      by_cases hv : k a = v
      · have hbv : ¬ (k b = v) := by rw [← hv]; exact ne_of_lt hlt
        simp [hv, hbv, List.filter_cons]
      · by_cases hbv : k b = v <;> simp [hv, hbv, List.filter_cons]

open Classical in
lemma filter_insertionSort_key {α : Type} (k : α → ℝ) (v : ℝ) :
    ∀ l : List α,
      (l.insertionSort (fun x y => k x ≤ k y)).filter (fun x => decide (k x = v))
        = l.filter (fun x => decide (k x = v))
  | [] => rfl
  | a :: l => by
    rw [List.insertionSort, filter_orderedInsert_key, List.filter_cons,
      filter_insertionSort_key k v l]
    by_cases hv : k a = v <;> simp [hv]

open Classical in
/-- C6: the route orderer sorts stops ascending by
`route_position = distance(start,stop) / distance(start,end)`, is a
permutation of its input, is stable (restricting input and output to the
stops at any fixed position value gives the same list, so ties keep their
input order), and maps every stop to position 0 when
`distance(start,end) = 0`, so no division by zero occurs. -/
theorem route_order_sorted_stable (sg eg : GeoPoint) (stops : List GeoPoint) :
    (sortStopsByRoute sg eg stops).Pairwise
      (fun a b => routePosition sg eg a ≤ routePosition sg eg b)
    ∧ (sortStopsByRoute sg eg stops).Perm stops
    ∧ (∀ v : ℝ, (sortStopsByRoute sg eg stops).filter
          (fun x => decide (routePosition sg eg x = v))
        = stops.filter (fun x => decide (routePosition sg eg x = v)))
    ∧ (calcDistance sg eg = 0 → ∀ stop, routePosition sg eg stop = 0) := by
  refine ⟨?_, ?_, ?_, ?_⟩
  · haveI : IsTotal GeoPoint
        (fun a b => routePosition sg eg a ≤ routePosition sg eg b) :=
      ⟨fun a b => le_total _ _⟩
    haveI : IsTrans GeoPoint
        (fun a b => routePosition sg eg a ≤ routePosition sg eg b) :=
      ⟨fun a b c => le_trans⟩
    exact List.sorted_insertionSort _ stops
  · exact List.perm_insertionSort _ stops
  · intro v
    exact filter_insertionSort_key (routePosition sg eg) v stops
  · intro h stop
    unfold routePosition
    dsimp only
    rw [if_neg]
    rw [h]
    exact lt_irrefl 0

/-- Witness for C6: the degenerate coincident start/end at a concrete stop
list. -/
theorem route_order_sorted_stable_witness :
    (sortStopsByRoute pA pA [pB]).Pairwise
      (fun a b => routePosition pA pA a ≤ routePosition pA pA b)
    ∧ (sortStopsByRoute pA pA [pB]).Perm [pB]
    ∧ (∀ v : ℝ, (sortStopsByRoute pA pA [pB]).filter
          (fun x => decide (routePosition pA pA x = v))
        = [pB].filter (fun x => decide (routePosition pA pA x = v)))
    ∧ (calcDistance pA pA = 0 → ∀ stop, routePosition pA pA stop = 0) :=
  route_order_sorted_stable pA pA [pB]

/-! Day-allocation lower-bound lemmas. -/

lemma findIntermediateStops_fst_ok_length (o : MapsOracle) (sg eg : GeoPoint)
    (cs : List String) (ms td mst : ℤ) (res : List GeoPoint)
    (h : (findIntermediateStops o sg eg cs ms td mst).1 = .ok res) :
    res.length ≤ (min ms ((td - 2 * mst).fdiv mst)).toNat := by
  have hp : findIntermediateStops o sg eg cs ms td mst
      = (.ok res, (findIntermediateStops o sg eg cs ms td mst).2) := by
    rw [← h]
  exact findIntermediateStops_ok_length o sg eg cs ms td mst res _ hp

/-- The stop-capacity bound turns into a day bound once the trip is at least
`2 * min_stay` days long: `min_stay` days fit at every one of the
`k + 2` locations. -/
lemma capacity_days_bound (ms td mst : ℤ) (hmst : 1 ≤ mst) (h2 : 2 * mst ≤ td)
    (k : ℕ) (hk : k ≤ (min ms ((td - 2 * mst).fdiv mst)).toNat) :
    mst * ((k : ℤ) + 2) ≤ td := by
  have hfd : mst * ((td - 2 * mst).fdiv mst) ≤ td - 2 * mst := by
    rw [Int.fdiv_eq_ediv _ (by omega : (0:ℤ) ≤ mst)]
    have hle := Int.ediv_mul_le (td - 2 * mst) (by omega : mst ≠ 0)
    linarith [hle]
  by_cases hcap : min ms ((td - 2 * mst).fdiv mst) ≤ 0
  · have hk0 : k = 0 := by omega
    subst hk0
    push_cast
    linarith
  · have h4 : (k : ℤ) ≤ (td - 2 * mst).fdiv mst := by
      have h3 : (k : ℤ) ≤ min ms ((td - 2 * mst).fdiv mst) := by omega
      exact le_trans h3 (min_le_right _ _)
    have h5 : mst * (k : ℤ) ≤ mst * ((td - 2 * mst).fdiv mst) :=
      mul_le_mul_of_nonneg_left h4 (by omega)
    have hx : mst * ((k : ℤ) + 2) = mst * (k : ℤ) + 2 * mst := by ring
    linarith

/-- C9 counterexample: the valid invocation `total_days = min_stay = 1`
returns an itinerary with two locations whose day counts are `[1, 0]`:
`min_stay * len(locations) = 2 > 1 = total_days`, the base is
`max(min_stay, total_days // 2) = 1 ≠ 0 = total_days // 2`, the remainder is
negative, and the last schedule entry gets `0 < min_stay` days — the
negative-remainder edge case is reachable through the public operation. -/
theorem allocator_min_stay_counterexample :
    (generateItinerary oracleEmpty "A" "B" 0 1 [] 5 1).1 = .ok itinOneDay
    ∧ itinOneDay.daily_schedule.map ScheduleEntry.days = [1, 0]
    ∧ ¬ ((1 : ℤ) * itinOneDay.locations.length ≤ itinOneDay.total_days)
    ∧ ¬ ((1 : ℤ) ≤ itinOneDay.total_days.fdiv itinOneDay.locations.length)
    ∧ ∃ entry ∈ itinOneDay.daily_schedule, entry.days < 1 :=
  ⟨rfl, by decide, by decide, by decide, by decide⟩

/-- C9 (amended): for every returned itinerary of an invocation with
`min_stay ≥ 1` and `total_days ≥ 2 * min_stay`, the stop-capacity bound
guarantees `min_stay * len(locations) ≤ total_days`, the allocator's base
equals `total_days // len(locations) ≥ min_stay`, its remainder is
non-negative, and every schedule entry (including the last) has
`days ≥ min_stay`.  (The original claim fails for
`min_stay ≤ total_days < 2 * min_stay`, where the itinerary still has the
two endpoint locations; see the counterexample.) -/
theorem allocator_min_stay_amended (o : MapsOracle) (sl el : String)
    (sd ed : ℤ) (cs : List String) (ms mst : ℤ) (itin : Itinerary)
    (hmst : 1 ≤ mst) (h2 : 2 * mst ≤ ed - sd)
    (h : (generateItinerary o sl el sd ed cs ms mst).1 = .ok itin) :
    mst * itin.locations.length ≤ ed - sd
    ∧ mst ≤ (ed - sd).fdiv itin.locations.length
    ∧ max mst ((ed - sd).fdiv itin.locations.length)
        = (ed - sd).fdiv itin.locations.length
    ∧ 0 ≤ ed - sd - ((ed - sd).fdiv itin.locations.length) * itin.locations.length
    ∧ ∀ entry ∈ itin.daily_schedule, mst ≤ entry.days := by
  obtain ⟨-, -, -, sg, eg, stops, -, -, hst, hlocs, hsched⟩ :=
    generateItinerary_ok o sl el sd ed cs ms mst itin h
  have hlen : itin.locations.length = stops.length + 2 := by
    simp [hlocs]
  have hkb := findIntermediateStops_fst_ok_length o sg eg cs ms (ed - sd) mst stops hst
  have hA : mst * ((stops.length : ℤ) + 2) ≤ ed - sd :=
    capacity_days_bound ms (ed - sd) mst hmst h2 stops.length hkb
  have h1 : mst * (itin.locations.length : ℤ) ≤ ed - sd := by
    rw [hlen]
    push_cast
    push_cast at hA
    linarith
  have hn : 0 < (itin.locations.length : ℤ) := by
    rw [hlen]
    positivity
  have hfe : (ed - sd).fdiv itin.locations.length
      = (ed - sd) / itin.locations.length :=
    Int.fdiv_eq_ediv _ hn.le
  have hbase : mst ≤ (ed - sd).fdiv itin.locations.length := by
    rw [hfe]
    exact (Int.le_ediv_iff_mul_le hn).mpr h1
  have hmax : max mst ((ed - sd).fdiv itin.locations.length)
      = (ed - sd).fdiv itin.locations.length := max_eq_right hbase
  have hrem : 0 ≤ ed - sd
      - ((ed - sd).fdiv itin.locations.length) * itin.locations.length := by
    rw [hfe]
    have hle := Int.ediv_mul_le (ed - sd) (by omega : (itin.locations.length : ℤ) ≠ 0)
    linarith
  refine ⟨h1, hbase, hmax, hrem, ?_⟩
  intro entry hentry
  rw [hsched] at hentry
  unfold distributeDays at hentry
  rw [if_neg (by omega)] at hentry
  dsimp only at hentry
  have hge := distributeDaysAux_days_ge
    (max mst ((ed - sd).fdiv itin.locations.length)) itin.locations sd
    (ed - sd - max mst ((ed - sd).fdiv itin.locations.length) * itin.locations.length)
    (by rw [hmax]; exact hrem) entry hentry
  calc mst ≤ max mst ((ed - sd).fdiv itin.locations.length) := le_max_left _ _
    _ ≤ entry.days := hge

/-- Witness for C9 (amended): the concrete two-day trip. -/
theorem allocator_min_stay_amended_witness :
    (1 : ℤ) * itinTwoDay.locations.length ≤ 2 - 0
    ∧ (1 : ℤ) ≤ ((2 : ℤ) - 0).fdiv itinTwoDay.locations.length
    ∧ max (1 : ℤ) (((2 : ℤ) - 0).fdiv itinTwoDay.locations.length)
        = ((2 : ℤ) - 0).fdiv itinTwoDay.locations.length
    ∧ 0 ≤ (2 : ℤ) - 0
        - (((2 : ℤ) - 0).fdiv itinTwoDay.locations.length) * itinTwoDay.locations.length
    ∧ ∀ entry ∈ itinTwoDay.daily_schedule, (1 : ℤ) ≤ entry.days :=
  allocator_min_stay_amended oracleEmpty "A" "B" 0 2 [] 5 1 itinTwoDay
    (by decide) (by decide) rfl

end Fluctour
